import Mathlib

/-!
Shallow embedding of `src/weather_dashboard.py` (the `WeatherDashboard`
class and the `main` entry point).  External effects — the environment,
the key-management service, the storage service, the HTTP weather
provider, the clock — are modelled as explicit inputs (oracles), and each
operation returns a record of its result together with the observable
calls it made.
-/

set_option autoImplicit false

namespace WeatherDashboard

/-- Model of a Python/JSON value, as handled by `response.json()` and
`json.dumps`. Numbers are modelled as integers; no claim depends on
numeric values. -/
inductive JValue where
  | null
  | bool (b : Bool)
  | num (n : Int)
  | str (s : String)
  | obj (fields : List (String × JValue))
  | arr (items : List JValue)
deriving Repr

/-- Python truthiness of a value (`if weather_data:` etc.). -/
def pyTruthy : JValue → Bool
  | .null => false
  | .bool b => b
  | .num n => n != 0
  | .str s => s != ""
  | .obj fs => !fs.isEmpty
  | .arr xs => !xs.isEmpty

/-- Python truthiness of an optional value (`None` is falsy). -/
def pyTruthyOpt : Option JValue → Bool
  | none => false
  | some v => pyTruthy v

/-- Python truthiness of an optional string such as `self.kms_key_id`
(`None` and the empty string are falsy). -/
def pyTruthyStr : Option String → Bool
  | none => false
  | some s => s != ""

/-- `d[k]` lookup on a dict, first matching key. -/
def lookupField : List (String × JValue) → String → Option JValue
  | [], _ => none
  | (k0, v0) :: rest, k => if k0 = k then some v0 else lookupField rest k

/-- `d[k] = v` on a dict: replace the value of an existing key in place,
otherwise append the new pair at the end (Python insertion order). -/
def setField : List (String × JValue) → String → JValue → List (String × JValue)
  | [], k, v => [(k, v)]
  | (k0, v0) :: rest, k, v =>
      if k0 = k then (k0, v) :: rest else (k0, v0) :: setField rest k v

/-- `x[k]` subscript with a string key: succeeds only on a dict holding
the key; any other case raises (`KeyError`/`TypeError`), modelled `none`. -/
def getItem : JValue → String → Option JValue
  | .obj fs, k => lookupField fs k
  | _, _ => none

/-- `x[i]` subscript with an integer index on a list; out of range or a
non-list raises, modelled `none`. -/
def getIndex : JValue → Nat → Option JValue
  | .arr xs, i => xs.get? i
  | _, _ => none

mutual

/-- `json.dumps` model: a concrete serialization of a `JValue`. -/
def jsonDumps : JValue → String
  | .null => "null"
  | .bool true => "true"
  | .bool false => "false"
  | .num n => toString n
  | .str s => "\"" ++ s ++ "\""
  | .obj fs => "\x7b" ++ dumpFields fs ++ "\x7d"
  | .arr xs => "[" ++ dumpItems xs ++ "]"

def dumpFields : List (String × JValue) → String
  | [] => ""
  | [(k, v)] => "\"" ++ k ++ "\": " ++ jsonDumps v
  | (k, v) :: rest => "\"" ++ k ++ "\": " ++ jsonDumps v ++ ", " ++ dumpFields rest

def dumpItems : List JValue → String
  | [] => ""
  | [v] => jsonDumps v
  | v :: rest => jsonDumps v ++ ", " ++ dumpItems rest

end

/-- Result of `create_kms_key_if_not_exists`: the held key identifier
(`self.kms_key_id`), whether `kms_client.create_key` was invoked, and the
value of the `AWS_KMS_KEY_ID` environment variable afterwards. -/
structure KmsResult where
  kmsKeyId : Option String
  createCalled : Bool
  envAfter : Option String
deriving Repr, DecidableEq

/-- `create_kms_key_if_not_exists` (lines 19–43).  `env` is the value of
the `AWS_KMS_KEY_ID` environment variable; `createOutcome` is the
outcome of the `create_key` call (`ok keyId`, or `error` when the call
raises — the exception is caught and logged, leaving the key unset). -/
def create_kms_key_if_not_exists (env : Option String)
    (createOutcome : Except Unit String) : KmsResult :=
  let keyId := env
  if pyTruthyStr keyId then
    { kmsKeyId := keyId, createCalled := false, envAfter := env }
  else
    match createOutcome with
    | .ok newId => { kmsKeyId := some newId, createCalled := true, envAfter := some newId }
    | .error _ => { kmsKeyId := keyId, createCalled := true, envAfter := env }

/-- Observable state of the storage service for one bucket: whether it
exists and which key (if any) its default encryption is bound to. -/
structure S3World where
  bucketExists : Bool
  bucketEnc : Option String
deriving Repr, DecidableEq

/-- Result of `create_bucket_if_not_exists`: the storage state
afterwards and the calls made. -/
structure BucketResult where
  world : S3World
  createCalled : Bool
  putEncryptionCall : Option String
  omissionReported : Bool
deriving Repr, DecidableEq

/-- `create_bucket_if_not_exists` (lines 45–75).  `head_bucket` succeeds
exactly when the bucket exists; `createOk` / `putEncOk` say whether the
`create_bucket` / `put_bucket_encryption` calls succeed (their
exceptions are caught by the inner handler and logged). -/
def create_bucket_if_not_exists (kmsKeyId : Option String) (w : S3World)
    (createOk : Bool) (putEncOk : Bool) : BucketResult :=
  if w.bucketExists then
    { world := w, createCalled := false, putEncryptionCall := none, omissionReported := false }
  else if createOk then
    let w1 : S3World := { w with bucketExists := true }
    if pyTruthyStr kmsKeyId then
      if putEncOk then
        { world := { w1 with bucketEnc := kmsKeyId }, createCalled := true,
          putEncryptionCall := kmsKeyId, omissionReported := false }
      else
        { world := w1, createCalled := true,
          putEncryptionCall := kmsKeyId, omissionReported := false }
    else
      { world := w1, createCalled := true,
        putEncryptionCall := none, omissionReported := true }
  else
    { world := w, createCalled := true,
      putEncryptionCall := none, omissionReported := false }

/-- Outcome of the provider HTTP call in `fetch_weather`: either a
`requests` exception (network/HTTP error) or a parsed JSON payload. -/
inductive FetchOutcome where
  | reqError
  | payload (v : JValue)
deriving Repr

/-- `fetch_weather` (lines 77–92): returns the parsed payload, or `None`
when the request raised (the exception is caught and logged). -/
def fetch_weather : FetchOutcome → Option JValue
  | .reqError => none
  | .payload v => some v

/-- One `put_object` call as issued by `save_to_s3`. -/
structure PutCall where
  bucket : String
  key : String
  body : String
  contentType : String
  sse : String
  sseKmsKeyId : String
deriving Repr, DecidableEq

/-- Result of `save_to_s3`: the returned boolean, the payload object
after the call (the Python dict is mutated in place), and the
`put_object` call if one was attempted. -/
structure SaveResult where
  ok : Bool
  payloadAfter : Option JValue
  putCall : Option PutCall
deriving Repr

/-- The storage path `f"weather-data/(city)-(timestamp).json"`. -/
def savePath (city timestamp : String) : String :=
  "weather-data/" ++ city ++ "-" ++ timestamp ++ ".json"

/-- `save_to_s3` (lines 94–120).  `timestamp` is the value
`datetime.now().strftime(...)` produced at the top of the call; `putOk`
says whether the `put_object` call succeeds.  A falsy payload returns
`False` at once; a truthy non-dict payload raises `TypeError` at the
`weather_data["timestamp"] = timestamp` assignment, caught by the
handler, returning `False`; an unset key identifier raises `ValueError`
after the timestamp has been stamped, also caught, returning `False`. -/
def save_to_s3 (kmsKeyId : Option String) (bucketName : String)
    (weather_data : Option JValue) (city : String) (timestamp : String)
    (putOk : Bool) : SaveResult :=
  if !pyTruthyOpt weather_data then
    { ok := false, payloadAfter := weather_data, putCall := none }
  else
    match weather_data with
    | some (JValue.obj fields) =>
        let wd := JValue.obj (setField fields "timestamp" (JValue.str timestamp))
        if !pyTruthyStr kmsKeyId then
          { ok := false, payloadAfter := some wd, putCall := none }
        else
          let pc : PutCall :=
            { bucket := bucketName, key := savePath city timestamp,
              body := jsonDumps wd, contentType := "application/json",
              sse := "aws:kms", sseKmsKeyId := kmsKeyId.getD "" }
          if putOk then
            { ok := true, payloadAfter := some wd, putCall := some pc }
          else
            { ok := false, payloadAfter := some wd, putCall := some pc }
    | _ =>
        { ok := false, payloadAfter := weather_data, putCall := none }

/-- The four values `main` extracts from a truthy payload
(lines 137–140). -/
structure Summary where
  temp : JValue
  feelsLike : JValue
  humidity : JValue
  description : JValue
deriving Repr

/-- The unguarded extraction in `main`:
`weather_data["main"]["temp"]`, `["feels_like"]`, `["humidity"]`,
`weather_data["weather"][0]["description"]`.  `none` models an uncaught
`KeyError`/`IndexError`/`TypeError`. -/
def extractSummary (wd : JValue) : Option Summary := do
  let m ← getItem wd "main"
  let t ← getItem m "temp"
  let fl ← getItem m "feels_like"
  let h ← getItem m "humidity"
  let w ← getItem wd "weather"
  let w0 ← getIndex w 0
  let d ← getItem w0 "description"
  pure { temp := t, feelsLike := fl, humidity := h, description := d }

/-- What `main` did for one city: the fetch came back falsy (per-city
failure message printed), or the summary was printed and `save_to_s3`
called. -/
inductive CityReport where
  | fetchFailed (city : String)
  | processed (city : String) (summary : Summary) (save : SaveResult)
deriving Repr

/-- One iteration of the loop in `main` (lines 133–152) for one city.
`none` models an uncaught exception escaping the loop body: a truthy
payload on which the summary extraction raises. -/
def processCity (kms : Option String) (bucketName city : String)
    (f : FetchOutcome) (timestamp : String) (putOk : Bool) : Option CityReport :=
  match fetch_weather f with
  | none => some (.fetchFailed city)
  | some wd =>
    if pyTruthy wd then
      match extractSummary wd with
      | none => none
      | some s =>
          some (.processed city s (save_to_s3 kms bucketName (some wd) city timestamp putOk))
    else
      some (.fetchFailed city)

/-- Per-iteration external outcomes, indexed by loop position: the
provider outcome, the clock value read in `save_to_s3`, and whether the
`put_object` call succeeds. -/
structure CityOracle where
  fetch : Nat → FetchOutcome
  ts : Nat → String
  putOk : Nat → Bool

/-- The loop in `main` over the city list, starting at position `i`.
`ok reports` means the loop ran to completion; `error (c, reports)`
means an uncaught exception escaped while processing city `c`, with
`reports` the cities completed before it — the remaining cities are
never processed. -/
def runCities (kms : Option String) (bucketName : String) (o : CityOracle)
    (i : Nat) : List String → Except (String × List CityReport) (List CityReport)
  | [] => .ok []
  | c :: rest =>
    match processCity kms bucketName c (o.fetch i) (o.ts i) (o.putOk i) with
    | none => .error (c, [])
    | some r =>
      match runCities kms bucketName o (i + 1) rest with
      | .ok rs => .ok (r :: rs)
      | .error (ac, rs) => .error (ac, r :: rs)

/-- The fixed city list in `main` (line 131). -/
def cities : List String := ["Calgary", "Ontario", "New York"]

/-- Trace of a whole run of `main`: provisioning results and the loop
outcome. -/
structure RunTrace where
  kms : KmsResult
  bucket : BucketResult
  reports : Except (String × List CityReport) (List CityReport)

/-- `main` (lines 122–152): provision the key, provision the bucket,
then loop over the fixed city list. -/
def dashboardRun (env : Option String) (createKeyOutcome : Except Unit String)
    (bucketName : String) (w : S3World) (createOk putEncOk : Bool)
    (o : CityOracle) : RunTrace :=
  let k := create_kms_key_if_not_exists env createKeyOutcome
  let b := create_bucket_if_not_exists k.kmsKeyId w createOk putEncOk
  let rs := runCities k.kmsKeyId bucketName o 0 cities
  { kms := k, bucket := b, reports := rs }

/-- The per-city reports produced before the loop ended (normally or by
an uncaught exception). -/
def reportsOf : Except (String × List CityReport) (List CityReport) → List CityReport
  | .ok rs => rs
  | .error (_, rs) => rs

/-- The `put_object` calls recorded in one city report. -/
def putsOfReport : CityReport → List PutCall
  | .fetchFailed _ => []
  | .processed _ _ s =>
    match s.putCall with
    | none => []
    | some pc => [pc]

/-- All `put_object` calls recorded in a list of reports. -/
def putsOfReports : List CityReport → List PutCall
  | [] => []
  | r :: rs => putsOfReport r ++ putsOfReports rs

/-- All `put_object` calls issued during a run of `main`. -/
def putsOfRun (t : RunTrace) : List PutCall :=
  putsOfReports (reportsOf t.reports)

/-- Fields of a well-formed provider payload, as in the spec scenario
for Calgary. -/
def goodFields : List (String × JValue) :=
  [("main", .obj [("temp", .num 45), ("feels_like", .num 40), ("humidity", .num 60)]),
   ("weather", .arr [.obj [("description", .str "clear sky")]])]

/-- A well-formed provider payload. -/
def goodPayload : JValue := .obj goodFields

/-- A truthy payload that lacks `main`: `response.json()` can return any
JSON object, e.g. an error body. -/
def badPayload : JValue := .obj [("cod", .num 401)]

/-- Oracle: every fetch returns the well-formed payload. -/
def goodOracle : CityOracle :=
  { fetch := fun _ => .payload goodPayload,
    ts := fun _ => "20260101-000000",
    putOk := fun _ => true }

/-- Oracle: every fetch returns the truthy malformed payload. -/
def badOracle : CityOracle :=
  { fetch := fun _ => .payload badPayload,
    ts := fun _ => "20260101-000000",
    putOk := fun _ => true }

/-- Oracle: every fetch raises a `requests` exception. -/
def sentinelOracle : CityOracle :=
  { fetch := fun _ => .reqError,
    ts := fun _ => "20260101-000000",
    putOk := fun _ => true }

/-- Oracle: the first fetch is well-formed, later ones malformed. -/
def mixedOracle : CityOracle :=
  { fetch := fun j => if j = 0 then .payload goodPayload else .payload badPayload,
    ts := fun _ => "20260101-000000",
    putOk := fun _ => true }

/-! ## Helper lemmas -/

theorem reportsOf_runCities_cons (kms : Option String) (bucketName : String)
    (o : CityOracle) (i : Nat) (c : String) (rest : List String) :
    reportsOf (runCities kms bucketName o i (c :: rest)) =
      match processCity kms bucketName c (o.fetch i) (o.ts i) (o.putOk i) with
      | none => []
      | some r => r :: reportsOf (runCities kms bucketName o (i + 1) rest) := by
  cases hp : processCity kms bucketName c (o.fetch i) (o.ts i) (o.putOk i) with
  | none => simp [runCities, hp, reportsOf]
  | some r =>
    cases hr : runCities kms bucketName o (i + 1) rest with
    | ok rs => simp [runCities, hp, hr, reportsOf]
    | error e =>
      obtain ⟨ac, rs⟩ := e
      simp [runCities, hp, hr, reportsOf]

theorem processCity_reqError (kms : Option String) (bucketName city : String)
    (timestamp : String) (putOk : Bool) :
    processCity kms bucketName city FetchOutcome.reqError timestamp putOk =
      some (CityReport.fetchFailed city) := rfl

theorem pyTruthyStr_eq_true {k : Option String} (h : pyTruthyStr k = true) :
    k = some (k.getD "") ∧ k.getD "" ≠ "" := by
  cases k with
  | none => simp [pyTruthyStr] at h
  | some s => simpa [pyTruthyStr, bne_iff_ne] using h

theorem lookupField_setField (fs : List (String × JValue)) (k : String) (v : JValue) :
    lookupField (setField fs k v) k = some v := by
  induction fs with
  | nil => simp [setField, lookupField]
  | cons p rest ih =>
    obtain ⟨k0, v0⟩ := p
    by_cases hk : k0 = k
    · simp [setField, lookupField, hk]
    · simp [setField, lookupField, hk, ih]

/-! ## Claims -/

/-- C7: `create_kms_key_if_not_exists` is idempotent: when a key
identifier is available from the environment (truthy), no `create_key`
call is made and the held identifier equals the pre-set one. -/
theorem kms_provision_idempotent (env : Option String) (cko : Except Unit String)
    (h : pyTruthyStr env = true) :
    (create_kms_key_if_not_exists env cko).createCalled = false ∧
    (create_kms_key_if_not_exists env cko).kmsKeyId = env := by
  simp [create_kms_key_if_not_exists, h]

/-- Witness for C7 at `env = "key-123"` with a failing creation oracle. -/
theorem kms_provision_idempotent_witness :
    (create_kms_key_if_not_exists (some "key-123") (Except.error ())).createCalled = false ∧
    (create_kms_key_if_not_exists (some "key-123") (Except.error ())).kmsKeyId = some "key-123" :=
  kms_provision_idempotent (some "key-123") (Except.error ()) (by decide)

/-- C8: `create_bucket_if_not_exists` is idempotent: when the bucket
already exists (the `head_bucket` check succeeds), no `create_bucket`
call and no `put_bucket_encryption` call is made. -/
theorem bucket_provision_idempotent (kms : Option String) (w : S3World)
    (createOk putEncOk : Bool) (h : w.bucketExists = true) :
    (create_bucket_if_not_exists kms w createOk putEncOk).createCalled = false ∧
    (create_bucket_if_not_exists kms w createOk putEncOk).putEncryptionCall = none := by
  simp [create_bucket_if_not_exists, h]

/-- Witness for C8 on an existing bucket. -/
theorem bucket_provision_idempotent_witness :
    (create_bucket_if_not_exists (some "key-123") ⟨true, none⟩ true true).createCalled = false ∧
    (create_bucket_if_not_exists (some "key-123") ⟨true, none⟩ true true).putEncryptionCall = none :=
  bucket_provision_idempotent (some "key-123") ⟨true, none⟩ true true (by decide)

/-- C4: `save_to_s3` never returns `True` while the key identifier is
unset (`None` or empty): it returns `False` and issues no `put_object`
call, for every payload and city. -/
theorem save_fails_without_key (kms : Option String) (bucketName : String)
    (wd : Option JValue) (city timestamp : String) (putOk : Bool)
    (h : pyTruthyStr kms = false) :
    (save_to_s3 kms bucketName wd city timestamp putOk).ok = false ∧
    (save_to_s3 kms bucketName wd city timestamp putOk).putCall = none := by
  cases wd with
  | none => simp [save_to_s3, pyTruthyOpt]
  | some v =>
    cases v with
    | null => simp [save_to_s3, pyTruthyOpt]
    | bool b => simp [save_to_s3, pyTruthyOpt, h]
    | num n =>
      simp only [save_to_s3, pyTruthyOpt]
      split <;> simp
    | str s =>
      simp only [save_to_s3, pyTruthyOpt]
      split <;> simp
    | obj fields =>
      simp only [save_to_s3, pyTruthyOpt]
      split
      · simp
      · simp [h]
    | arr xs =>
      simp only [save_to_s3, pyTruthyOpt]
      split <;> simp

/-- Witness for C4: unset key, well-formed payload. -/
theorem save_fails_without_key_witness :
    (save_to_s3 none "bucket" (some goodPayload) "Calgary" "20260101-000000" true).ok = false ∧
    (save_to_s3 none "bucket" (some goodPayload) "Calgary" "20260101-000000" true).putCall = none :=
  save_fails_without_key none "bucket" (some goodPayload) "Calgary" "20260101-000000" true (by decide)

/-- Counterexample to C2: with an unset key identifier and a truthy
dict payload, `save_to_s3` rejects (returns `False`) — but the input
dict, which had no `timestamp` field, has acquired one: line 103 stamps
the payload before line 104 checks the key identifier. -/
theorem save_reject_mutates_counterexample :
    (save_to_s3 none "bucket" (some (JValue.obj [("a", JValue.num 1)]))
        "Calgary" "20260101-000000" true).ok = false ∧
    getItem (JValue.obj [("a", JValue.num 1)]) "timestamp" = none ∧
    (save_to_s3 none "bucket" (some (JValue.obj [("a", JValue.num 1)]))
        "Calgary" "20260101-000000" true).payloadAfter =
      some (JValue.obj [("a", JValue.num 1), ("timestamp", JValue.str "20260101-000000")]) :=
  ⟨rfl, rfl, rfl⟩

/-- C2 (amended): a falsy payload is rejected immediately, unmodified,
with no write; a truthy dict payload with the key identifier unset is
also rejected with no write, but only after the capture timestamp has
been stamped onto the payload. -/
theorem save_reject_behavior (kms : Option String) (bucketName : String)
    (wd : Option JValue) (city timestamp : String) (putOk : Bool) :
    (pyTruthyOpt wd = false →
      save_to_s3 kms bucketName wd city timestamp putOk =
        { ok := false, payloadAfter := wd, putCall := none }) ∧
    (∀ fields, wd = some (JValue.obj fields) → pyTruthy (JValue.obj fields) = true →
      pyTruthyStr kms = false →
      save_to_s3 kms bucketName wd city timestamp putOk =
        { ok := false,
          payloadAfter := some (JValue.obj (setField fields "timestamp" (JValue.str timestamp))),
          putCall := none }) := by
  constructor
  · intro h
    simp [save_to_s3, h]
  · intro fields hwd ht hk
    subst hwd
    simp [save_to_s3, pyTruthyOpt, ht, hk]

/-- Witness for C2 (amended): both rejection branches at concrete inputs. -/
theorem save_reject_behavior_witness :
    save_to_s3 none "bucket" none "Calgary" "20260101-000000" true =
      { ok := false, payloadAfter := none, putCall := none } ∧
    save_to_s3 none "bucket" (some (JValue.obj [("a", JValue.num 1)]))
        "Calgary" "20260101-000000" true =
      { ok := false,
        payloadAfter := some (JValue.obj
          (setField [("a", JValue.num 1)] "timestamp" (JValue.str "20260101-000000"))),
        putCall := none } :=
  ⟨(save_reject_behavior none "bucket" none "Calgary" "20260101-000000" true).1 (by decide),
   (save_reject_behavior none "bucket" (some (JValue.obj [("a", JValue.num 1)]))
       "Calgary" "20260101-000000" true).2 [("a", JValue.num 1)] rfl (by decide) (by decide)⟩

/-- Counterexample to C3: the key identifier is set, the bucket already
exists with no default encryption, and after the call its encryption
configuration is still absent — `put_bucket_encryption` only runs in the
branch where the bucket was just created. -/
theorem bucket_existing_not_reencrypted_counterexample :
    pyTruthyStr (some "key-123") = true ∧
    (create_bucket_if_not_exists (some "key-123") ⟨true, none⟩ true true).world.bucketEnc = none ∧
    (create_bucket_if_not_exists (some "key-123") ⟨true, none⟩ true true).putEncryptionCall = none :=
  ⟨by decide, rfl, rfl⟩

/-- C3 (amended): only when the bucket is newly created does
`create_bucket_if_not_exists` configure encryption: if creation succeeds
and the key identifier is set and the encryption call succeeds, the
bucket ends with default encryption bound to that key; if the key is
unset the configuration is skipped and the omission reported; if the
bucket already existed, its state is untouched and no encryption call is
made. -/
theorem bucket_encryption_behavior (kms : Option String) (w : S3World)
    (createOk putEncOk : Bool) :
    (w.bucketExists = false → createOk = true → pyTruthyStr kms = true → putEncOk = true →
      (create_bucket_if_not_exists kms w createOk putEncOk).world.bucketEnc = kms ∧
      (create_bucket_if_not_exists kms w createOk putEncOk).putEncryptionCall = kms) ∧
    (w.bucketExists = false → createOk = true → pyTruthyStr kms = false →
      (create_bucket_if_not_exists kms w createOk putEncOk).putEncryptionCall = none ∧
      (create_bucket_if_not_exists kms w createOk putEncOk).omissionReported = true) ∧
    (w.bucketExists = true →
      (create_bucket_if_not_exists kms w createOk putEncOk).world = w ∧
      (create_bucket_if_not_exists kms w createOk putEncOk).putEncryptionCall = none) := by
  refine ⟨?_, ?_, ?_⟩ <;> intros <;> simp [create_bucket_if_not_exists, *]

/-- Witness for C3 (amended): all three branches at concrete inputs. -/
theorem bucket_encryption_behavior_witness :
    ((create_bucket_if_not_exists (some "key-123") ⟨false, none⟩ true true).world.bucketEnc
        = some "key-123" ∧
      (create_bucket_if_not_exists (some "key-123") ⟨false, none⟩ true true).putEncryptionCall
        = some "key-123") ∧
    ((create_bucket_if_not_exists none ⟨false, none⟩ true true).putEncryptionCall = none ∧
      (create_bucket_if_not_exists none ⟨false, none⟩ true true).omissionReported = true) ∧
    ((create_bucket_if_not_exists (some "key-123") ⟨true, none⟩ true true).world
        = ⟨true, none⟩ ∧
      (create_bucket_if_not_exists (some "key-123") ⟨true, none⟩ true true).putEncryptionCall
        = none) :=
  ⟨(bucket_encryption_behavior (some "key-123") ⟨false, none⟩ true true).1
      rfl rfl (by decide) rfl,
   (bucket_encryption_behavior none ⟨false, none⟩ true true).2.1 rfl rfl (by decide),
   (bucket_encryption_behavior (some "key-123") ⟨true, none⟩ true true).2.2 rfl⟩

/-- C6: every successful `save_to_s3` call issued one `put_object` whose
path is exactly `weather-data/(city)-(timestamp).json`, whose body is
the serialization of the payload after a `timestamp` field was stamped
onto it, and the timestamp in the path is the same value as the
`timestamp` field stored in the payload. -/
theorem save_success_path_and_stamp (kms : Option String) (bucketName : String)
    (wd : Option JValue) (city timestamp : String) (putOk : Bool)
    (h : (save_to_s3 kms bucketName wd city timestamp putOk).ok = true) :
    ∃ pc w,
      (save_to_s3 kms bucketName wd city timestamp putOk).putCall = some pc ∧
      (save_to_s3 kms bucketName wd city timestamp putOk).payloadAfter = some w ∧
      pc.key = savePath city timestamp ∧
      savePath city timestamp = "weather-data/" ++ city ++ "-" ++ timestamp ++ ".json" ∧
      getItem w "timestamp" = some (JValue.str timestamp) ∧
      pc.body = jsonDumps w := by
  cases wd with
  | none => simp [save_to_s3, pyTruthyOpt] at h
  | some v =>
    cases v with
    | obj fields =>
      by_cases ht : pyTruthy (JValue.obj fields)
      · by_cases hk : pyTruthyStr kms
        · cases putOk with
          | false => simp [save_to_s3, pyTruthyOpt, ht, hk] at h
          | true =>
            refine ⟨PutCall.mk bucketName (savePath city timestamp)
                (jsonDumps (JValue.obj (setField fields "timestamp" (JValue.str timestamp))))
                "application/json" "aws:kms" (kms.getD ""),
              JValue.obj (setField fields "timestamp" (JValue.str timestamp)),
              ?_, ?_, rfl, rfl, ?_, rfl⟩
            · simp [save_to_s3, pyTruthyOpt, ht, hk]
            · simp [save_to_s3, pyTruthyOpt, ht, hk]
            · simp [getItem, lookupField_setField]
        · simp [save_to_s3, pyTruthyOpt, ht, hk] at h
      · simp [save_to_s3, pyTruthyOpt, ht] at h
    | null => simp [save_to_s3, pyTruthyOpt] at h
    | bool b => simp [save_to_s3, pyTruthyOpt] at h
    | num n => simp [save_to_s3, pyTruthyOpt] at h
    | str s => simp [save_to_s3, pyTruthyOpt] at h
    | arr xs => simp [save_to_s3, pyTruthyOpt] at h

/-- Witness for C6: a successful save of the well-formed payload. -/
theorem save_success_path_and_stamp_witness :
    (save_to_s3 (some "key-123") "bucket" (some goodPayload)
        "Calgary" "20260101-000000" true).ok = true ∧
    (∃ pc w,
      (save_to_s3 (some "key-123") "bucket" (some goodPayload)
          "Calgary" "20260101-000000" true).putCall = some pc ∧
      (save_to_s3 (some "key-123") "bucket" (some goodPayload)
          "Calgary" "20260101-000000" true).payloadAfter = some w ∧
      pc.key = savePath "Calgary" "20260101-000000" ∧
      savePath "Calgary" "20260101-000000" =
        "weather-data/" ++ "Calgary" ++ "-" ++ "20260101-000000" ++ ".json" ∧
      getItem w "timestamp" = some (JValue.str "20260101-000000") ∧
      pc.body = jsonDumps w) :=
  ⟨rfl, save_success_path_and_stamp (some "key-123") "bucket" (some goodPayload)
      "Calgary" "20260101-000000" true rfl⟩

/-- C5: during the loop of `main`, a city whose fetch raised (the
no-data sentinel `None`) gets a per-city failure report and no
`put_object` call: the `j`-th report of a run over any city list, when
the `j`-th fetch outcome is an exception, is `fetchFailed` and carries
no put. -/
theorem run_no_put_on_fetch_failure (kms : Option String) (bucketName : String)
    (o : CityOracle) (i : Nat) (cs : List String) (j : Nat) (r : CityReport)
    (hr : (reportsOf (runCities kms bucketName o i cs)).get? j = some r)
    (hf : o.fetch (i + j) = FetchOutcome.reqError) :
    (∃ c, cs.get? j = some c ∧ r = CityReport.fetchFailed c) ∧
    putsOfReport r = [] := by
  induction cs generalizing i j with
  | nil => simp [runCities, reportsOf] at hr
  | cons c rest ih =>
    rw [reportsOf_runCities_cons] at hr
    cases hp : processCity kms bucketName c (o.fetch i) (o.ts i) (o.putOk i) with
    | none => rw [hp] at hr; simp at hr
    | some r0 =>
      rw [hp] at hr
      cases j with
      | zero =>
        simp at hr
        have hfi : o.fetch i = FetchOutcome.reqError := by simpa using hf
        rw [hfi, processCity_reqError] at hp
        have hr0 : r0 = CityReport.fetchFailed c := by
          injection hp with h0
          exact h0.symm
        subst hr
        subst hr0
        exact ⟨⟨c, by simp, rfl⟩, rfl⟩
      | succ j =>
        simp only [List.get?] at hr
        have hf1 : o.fetch ((i + 1) + j) = FetchOutcome.reqError := by
          have : (i + 1) + j = i + (j + 1) := by omega
          rw [this]
          exact hf
        have := ih (i + 1) j hr hf1
        simpa using this

/-- Witness for C5: every fetch raises; the second report of the run
over the fixed city list is a `fetchFailed` for Ontario with no put. -/
theorem run_no_put_on_fetch_failure_witness :
    (∃ c, cities.get? 1 = some c ∧
      CityReport.fetchFailed "Ontario" = CityReport.fetchFailed c) ∧
    putsOfReport (CityReport.fetchFailed "Ontario") = [] :=
  run_no_put_on_fetch_failure (some "key-123") "bucket" sentinelOracle 0 cities 1
    (CityReport.fetchFailed "Ontario") rfl rfl

theorem save_putCall_uses_key {kms : Option String} {bucketName : String}
    {wd : Option JValue} {city timestamp : String} {putOk : Bool} {pc : PutCall}
    (h : (save_to_s3 kms bucketName wd city timestamp putOk).putCall = some pc) :
    kms = some pc.sseKmsKeyId ∧ pc.sseKmsKeyId ≠ "" := by
  cases wd with
  | none => simp [save_to_s3, pyTruthyOpt] at h
  | some v =>
    cases v with
    | obj fields =>
      by_cases ht : pyTruthy (JValue.obj fields)
      · by_cases hk : pyTruthyStr kms
        · have hkk := pyTruthyStr_eq_true hk
          cases putOk <;>
            · simp [save_to_s3, pyTruthyOpt, ht, hk] at h
              subst h
              exact hkk
        · simp [save_to_s3, pyTruthyOpt, ht, hk] at h
      · simp [save_to_s3, pyTruthyOpt, ht] at h
    | null => simp [save_to_s3, pyTruthyOpt] at h
    | bool b => simp [save_to_s3, pyTruthyOpt] at h
    | num n => simp [save_to_s3, pyTruthyOpt] at h
    | str s => simp [save_to_s3, pyTruthyOpt] at h
    | arr xs => simp [save_to_s3, pyTruthyOpt] at h

theorem processCity_put_uses_key {kms : Option String} {bucketName city : String}
    {f : FetchOutcome} {timestamp : String} {putOk : Bool} {r : CityReport} {pc : PutCall}
    (hp : processCity kms bucketName city f timestamp putOk = some r)
    (hm : pc ∈ putsOfReport r) :
    kms = some pc.sseKmsKeyId ∧ pc.sseKmsKeyId ≠ "" := by
  cases f with
  | reqError =>
    rw [processCity_reqError] at hp
    injection hp with h0
    subst h0
    simp [putsOfReport] at hm
  | payload wd =>
    by_cases ht : pyTruthy wd
    · cases he : extractSummary wd with
      | none => simp [processCity, fetch_weather, ht, he] at hp
      | some s =>
        simp only [processCity, fetch_weather, ht, he, if_true, Option.some.injEq] at hp
        subst hp
        simp only [putsOfReport] at hm
        cases hput : (save_to_s3 kms bucketName (some wd) city timestamp putOk).putCall with
        | none => rw [hput] at hm; simp at hm
        | some pc0 =>
          rw [hput] at hm
          simp at hm
          subst hm
          exact save_putCall_uses_key hput
    · simp only [processCity, fetch_weather, ht, Bool.false_eq_true, if_false,
        Option.some.injEq] at hp
      subst hp
      simp [putsOfReport] at hm

theorem runCities_puts_use_key {kms : Option String} {bucketName : String}
    {o : CityOracle} :
    ∀ (cs : List String) (i : Nat) (pc : PutCall),
      pc ∈ putsOfReports (reportsOf (runCities kms bucketName o i cs)) →
      kms = some pc.sseKmsKeyId ∧ pc.sseKmsKeyId ≠ "" := by
  intro cs
  induction cs with
  | nil =>
    intro i pc h
    simp [runCities, reportsOf, putsOfReports] at h
  | cons c rest ih =>
    intro i pc h
    rw [reportsOf_runCities_cons] at h
    cases hp : processCity kms bucketName c (o.fetch i) (o.ts i) (o.putOk i) with
    | none => rw [hp] at h; simp [putsOfReports] at h
    | some r =>
      rw [hp] at h
      simp only [putsOfReports, List.mem_append] at h
      rcases h with h | h
      · exact processCity_put_uses_key hp h
      · exact ih (i + 1) pc h

/-- C9: over a whole run of `main`, the key identifier fixed at
provisioning time is the one requested by every `put_object` call the
run issues, and no object is ever written while the key identifier is
unset (every written call carries that non-empty key). -/
theorem run_single_key_invariant (env : Option String) (createKeyOutcome : Except Unit String)
    (bucketName : String) (w : S3World) (createOk putEncOk : Bool) (o : CityOracle)
    (pc : PutCall)
    (h : pc ∈ putsOfRun (dashboardRun env createKeyOutcome bucketName w createOk putEncOk o)) :
    (dashboardRun env createKeyOutcome bucketName w createOk putEncOk o).kms.kmsKeyId
      = some pc.sseKmsKeyId ∧
    pc.sseKmsKeyId ≠ "" := by
  exact runCities_puts_use_key cities 0 pc h

/-- The `put_object` call issued for Calgary in the all-good scenario. -/
def calgaryPut : PutCall :=
  PutCall.mk "bucket" (savePath "Calgary" "20260101-000000")
    (jsonDumps (JValue.obj (setField goodFields "timestamp" (JValue.str "20260101-000000"))))
    "application/json" "aws:kms" "key-123"

/-- Witness for C9: in the all-good run with pre-set key `key-123`,
the Calgary put is among the issued calls and carries that key. -/
theorem run_single_key_invariant_witness :
    (dashboardRun (some "key-123") (Except.error ()) "bucket" ⟨false, none⟩ true true
        goodOracle).kms.kmsKeyId = some calgaryPut.sseKmsKeyId ∧
    calgaryPut.sseKmsKeyId ≠ "" :=
  run_single_key_invariant (some "key-123") (Except.error ()) "bucket" ⟨false, none⟩
    true true goodOracle calgaryPut (by
      show calgaryPut ∈ putsOfRun (dashboardRun (some "key-123") (Except.error ())
        "bucket" ⟨false, none⟩ true true goodOracle)
      exact List.Mem.head _)

/-- C10: the summary extraction in `main` is partial: if the city at
position `pre.length` of the processed list fetches a truthy payload on
which the extraction fails, the loop aborts there with an uncaught
error — the result is the same whatever cities follow (they are never
processed), and it is an `error` whose completed reports do not go
beyond the cities before the faulty one. -/
theorem run_aborts_on_malformed_payload (kms : Option String) (bucketName : String)
    (o : CityOracle) (i : Nat) (pre : List String) (c : String) (post : List String)
    (wd : JValue)
    (hf : o.fetch (i + pre.length) = FetchOutcome.payload wd)
    (ht : pyTruthy wd = true)
    (he : extractSummary wd = none) :
    runCities kms bucketName o i (pre ++ c :: post) =
      runCities kms bucketName o i (pre ++ [c]) ∧
    ∃ ac rs, runCities kms bucketName o i (pre ++ c :: post) = Except.error (ac, rs) ∧
      rs.length ≤ pre.length := by
  have hproc : processCity kms bucketName c (o.fetch (i + pre.length))
      (o.ts (i + pre.length)) (o.putOk (i + pre.length)) = none := by
    rw [hf]
    simp [processCity, fetch_weather, ht, he]
  clear hf ht he
  induction pre generalizing i with
  | nil =>
    simp only [List.length_nil, Nat.add_zero] at hproc
    refine ⟨?_, c, [], ?_, by simp⟩
    · simp [runCities, hproc]
    · simp [runCities, hproc]
  | cons p rest ih =>
    have hproc1 : processCity kms bucketName c (o.fetch ((i + 1) + rest.length))
        (o.ts ((i + 1) + rest.length)) (o.putOk ((i + 1) + rest.length)) = none := by
      have harith : (i + 1) + rest.length = i + (p :: rest).length := by
        simp
        omega
      rw [harith]
      exact hproc
    obtain ⟨heq, ac, rs, herr, hlen⟩ := ih (i + 1) hproc1
    cases hp : processCity kms bucketName p (o.fetch i) (o.ts i) (o.putOk i) with
    | none =>
      refine ⟨?_, p, [], ?_, by simp⟩
      · simp [runCities, hp]
      · simp [runCities, hp]
    | some r =>
      refine ⟨?_, ac, r :: rs, ?_, ?_⟩
      · simp only [List.cons_append, runCities, hp, List.append_eq]
        rw [heq]
      · simp only [List.cons_append, runCities, hp, List.append_eq, herr]
      · simp only [List.length_cons]
        omega

/-- Witness for C10: Calgary fetches a well-formed payload, Ontario a
truthy malformed one; the run aborts at Ontario and New York is never
processed. -/
theorem run_aborts_on_malformed_payload_witness :
    runCities (some "key-123") "bucket" mixedOracle 0 (["Calgary"] ++ "Ontario" :: ["New York"]) =
      runCities (some "key-123") "bucket" mixedOracle 0 (["Calgary"] ++ ["Ontario"]) ∧
    ∃ ac rs,
      runCities (some "key-123") "bucket" mixedOracle 0 (["Calgary"] ++ "Ontario" :: ["New York"]) =
        Except.error (ac, rs) ∧
      rs.length ≤ (["Calgary"] : List String).length :=
  run_aborts_on_malformed_payload (some "key-123") "bucket" mixedOracle 0
    ["Calgary"] "Ontario" ["New York"] badPayload rfl rfl rfl

/-- Counterexample to C1: with every external call benign except that
the provider returns a truthy payload lacking the expected fields, the
loop of `main` raises an uncaught `KeyError` at the first city — the
run does not complete over the city list. -/
theorem run_always_completes_counterexample :
    runCities (some "key-123") "bucket" badOracle 0 cities =
      Except.error ("Calgary", []) ∧
    ¬ ∃ rs, runCities (some "key-123") "bucket" badOracle 0 cities = Except.ok rs := by
  refine ⟨rfl, ?_⟩
  rintro ⟨rs, h⟩
  rw [show runCities (some "key-123") "bucket" badOracle 0 cities =
    Except.error ("Calgary", []) from rfl] at h
  simp at h

/-- A fetch outcome on which the loop body of `main` cannot raise: the
request failed, or the payload is falsy, or the summary fields are all
present. -/
def benignFetch (f : FetchOutcome) : Prop :=
  ∀ wd, f = FetchOutcome.payload wd → pyTruthy wd = true →
    (extractSummary wd).isSome = true

/-- C1 (amended): every failure of an external call (network error,
key-management, storage) is caught and logged where it arises, and the
run completes over the whole city list — provided every truthy fetched
payload carries the summary fields, since the extraction in `main` is
unguarded and a malformed truthy payload aborts the run. -/
theorem run_completes_on_benign_fetches (kms : Option String) (bucketName : String)
    (o : CityOracle) (i : Nat) (cs : List String)
    (h : ∀ j, j < cs.length → benignFetch (o.fetch (i + j))) :
    ∃ rs, runCities kms bucketName o i cs = Except.ok rs ∧ rs.length = cs.length := by
  induction cs generalizing i with
  | nil => exact ⟨[], rfl, rfl⟩
  | cons c rest ih =>
    have h0 : benignFetch (o.fetch i) := by
      have := h 0 (by simp)
      simpa using this
    have hrest : ∀ j, j < rest.length → benignFetch (o.fetch ((i + 1) + j)) := by
      intro j hj
      have hh := h (j + 1) (by simpa using Nat.succ_lt_succ hj)
      have harith : i + (j + 1) = (i + 1) + j := by omega
      rwa [harith] at hh
    obtain ⟨rs, hrs, hlen⟩ := ih (i + 1) hrest
    have hp : ∃ r, processCity kms bucketName c (o.fetch i) (o.ts i) (o.putOk i) = some r := by
      cases hf : o.fetch i with
      | reqError => exact ⟨CityReport.fetchFailed c, rfl⟩
      | payload wd =>
        by_cases ht : pyTruthy wd
        · have hs := h0 wd hf ht
          obtain ⟨s, hs⟩ := Option.isSome_iff_exists.mp hs
          exact ⟨CityReport.processed c s
              (save_to_s3 kms bucketName (some wd) c (o.ts i) (o.putOk i)),
            by simp [processCity, fetch_weather, ht, hs]⟩
        · exact ⟨CityReport.fetchFailed c, by simp [processCity, fetch_weather, ht]⟩
    obtain ⟨r, hr⟩ := hp
    refine ⟨r :: rs, ?_, by simp [hlen]⟩
    simp [runCities, hr, hrs]

/-- Witness for C1 (amended): the all-good run completes over the fixed
three-city list. -/
theorem run_completes_on_benign_fetches_witness :
    ∃ rs, runCities (some "key-123") "bucket" goodOracle 0 cities = Except.ok rs ∧
      rs.length = cities.length :=
  run_completes_on_benign_fetches (some "key-123") "bucket" goodOracle 0 cities (by
    intro j hj wd hw ht
    have hwd : wd = goodPayload := by
      have hw2 : FetchOutcome.payload goodPayload = FetchOutcome.payload wd := hw
      injection hw2 with h0
      exact h0.symm
    subst hwd
    rfl)

end WeatherDashboard
